import Mathlib

/-!
Shallow embedding of the badminton-backend booking engine.

Sources embedded here:
* src/models/Booking.js      (bookingSchema: courtNumber, startTime, endTime, bookedBy, bookingDate)
* src/models/Venue.js        (venueSchema: name, maxCourts)
* src/models/Slot.js         (slotSchema: venue, courtNumber, startTime, endTime, bookedBy,
                              bookingDate, isSlotBooked)
* src/controllers/bookingController.js (createBooking, generateDailyBookingSlots)
* src/controllers/venueController.js   (getVenueAvailability)

Modelling conventions:
* Instants are integer milliseconds (type `Int`); an unparsable timestamp
  (JavaScript Invalid Date, whose numeric value is NaN) is `none`.
* JavaScript relational comparison of two Dates is numeric and returns false
  whenever either side is NaN; `dateLe` reproduces this.
* Mongoose documents are schema-projected on save with the default strict mode:
  a field passed to the model constructor that the schema does not declare is
  discarded.  bookingSchema declares no `venue` path, so a persisted booking
  document carries no venue field (`venue := none` on `BookingDoc`).
* A query filter is evaluated literally against the stored documents
  (MongoDB match semantics): an equality condition on a field the document
  does not carry does not match when the probe value is non-null.
* Casting an Invalid Date inside a query filter raises a mongoose CastError,
  which the surrounding try/catch converts to the 500 (internal failure)
  response; the embedding returns `internalFailure` at the point the filter
  would be cast.
* The persistence collaborator's create can fail; `generateDailyBookingSlots`
  therefore takes a `failOn` oracle saying which creations raise.  The
  fault-free runs use `fun _ => false`.
-/

namespace Badminton

/-- Milliseconds in one hour, the granularity used by `setHours` arithmetic. -/
def HOUR : Int := 3600000

/-- venueSchema (src/models/Venue.js): unique id, name, maxCourts (min 1). -/
structure Venue where
  id : String
  name : String
  maxCourts : Nat
deriving DecidableEq

/-- A persisted booking document.  bookingSchema (src/models/Booking.js)
declares only courtNumber, startTime, endTime, bookedBy, bookingDate; a MongoDB
document may simply lack a field, which is modelled as `venue = none`. -/
structure BookingDoc where
  venue : Option String
  courtNumber : String
  startTime : Int
  endTime : Int
  bookedBy : String
  bookingDate : Int
deriving DecidableEq

/-- slotSchema (src/models/Slot.js): venue is a required declared path here. -/
structure SlotDoc where
  venue : String
  courtNumber : String
  startTime : Int
  endTime : Int
  bookedBy : String
  bookingDate : Int
  isSlotBooked : Bool
deriving DecidableEq

/-- The persistence state: the venues, bookings and slots collections. -/
structure Store where
  venues : List Venue
  bookings : List BookingDoc
  slots : List SlotDoc
deriving DecidableEq

/-- The request body of POST /api/bookings; an absent field is `none`. -/
structure BookingRequest where
  venueId : Option String
  courtNumber : Option String
  startTime : Option String
  endTime : Option String
  bookedBy : Option String
deriving DecidableEq

/-- JavaScript falsiness of a possibly-absent string field: `!x` is true for
`undefined` and for the empty string. -/
def jsFalsy : Option String → Bool
  | none => true
  | some s => s == ""

/-- JavaScript `a <= b` on two Date values: numeric comparison that is false
whenever either side is an Invalid Date (NaN). -/
def dateLe : Option Int → Option Int → Bool
  | some a, some b => decide (a ≤ b)
  | _, _ => false

/-- The Interval Overlap Oracle of spec section 4.1, stated from the spec's
words: `aStart < bEnd AND bStart < aEnd` on half-open intervals.  The source
has no named oracle function; the claim theorems compare this definition with
the query filters the controllers actually run. -/
def overlaps (aStart aEnd bStart bEnd : Int) : Bool :=
  decide (aStart < bEnd) && decide (bStart < aEnd)

/-- The conflict filter of `Booking.findOne` in createBooking
(src/controllers/bookingController.js lines 41-46), applied to a stored
booking document `b`: `venue: venueId, courtNumber: courtNumber,
startTime: \x7b$lt: newEndTime\x7d, endTime: \x7b$gt: newStartTime\x7d`. -/
def bookingConflictFilter (venueId courtNumber : String)
    (newStartTime newEndTime : Int) (b : BookingDoc) : Bool :=
  b.venue == some venueId && b.courtNumber == courtNumber
    && decide (b.startTime < newEndTime) && decide (b.endTime > newStartTime)

/-- The filter of `Booking.countDocuments` in getVenueAvailability
(src/controllers/venueController.js lines 171-175): `venue: id,
startTime: \x7b$lt: checkEndTime\x7d, endTime: \x7b$gt: checkStartTime\x7d`. -/
def availabilityCountFilter (id : String)
    (checkStartTime checkEndTime : Int) (b : BookingDoc) : Bool :=
  b.venue == some id
    && decide (b.startTime < checkEndTime) && decide (b.endTime > checkStartTime)

/-- The object literal handed to `new Booking(...)` in createBooking
(lines 71-78): it does include `venue: venueId`. -/
structure BookingInput where
  venue : Option String
  courtNumber : String
  startTime : Int
  endTime : Int
  bookedBy : String
  bookingDate : Int

/-- `new Booking(input).save()`: mongoose strict mode keeps exactly the paths
declared by bookingSchema (src/models/Booking.js lines 17-40); the undeclared
`venue` value is discarded, so the persisted document has no venue field. -/
def bookingSchemaSave (inp : BookingInput) : BookingDoc :=
  { venue := none
  , courtNumber := inp.courtNumber
  , startTime := inp.startTime
  , endTime := inp.endTime
  , bookedBy := inp.bookedBy
  , bookingDate := inp.bookingDate }

/-- Outcome of createBooking, keyed by the response status class:
400 invalidInput, 404 notFound, 409 conflict, 201 created, 500 internalFailure. -/
inductive CreateBookingResult where
  | invalidInput
  | notFound
  | conflict
  | created (booking : BookingDoc)
  | internalFailure
deriving DecidableEq

/-- exports.createBooking (src/controllers/bookingController.js lines 14-88).
`parse` is the Date constructor on strings (none = Invalid Date); `now` is the
invocation instant used for bookingDate.  Returns the response outcome and the
store after the call. -/
def createBooking (parse : String → Option Int) (st : Store)
    (req : BookingRequest) (now : Int) : CreateBookingResult × Store :=
  if jsFalsy req.venueId || jsFalsy req.courtNumber || jsFalsy req.startTime
      || jsFalsy req.endTime || jsFalsy req.bookedBy then
    (.invalidInput, st)
  else
    let venueId := req.venueId.getD ""
    let courtNumber := req.courtNumber.getD ""
    let bookedBy := req.bookedBy.getD ""
    let newStartTime := req.startTime.bind parse
    let newEndTime := req.endTime.bind parse
    if dateLe newEndTime newStartTime then
      (.invalidInput, st)
    else
      match st.venues.find? (fun v => v.id == venueId) with
      | none => (.notFound, st)
      | some _ =>
        match newStartTime, newEndTime with
        | some s, some e =>
          (match st.bookings.find? (bookingConflictFilter venueId courtNumber s e) with
           | some _ => (.conflict, st)
           | none =>
             let b := bookingSchemaSave
               { venue := some venueId, courtNumber := courtNumber, startTime := s
               , endTime := e, bookedBy := bookedBy, bookingDate := now }
             (.created b, { st with bookings := st.bookings ++ [b] }))
        | _, _ => (.internalFailure, st)

/-- Query parameters of GET /api/venues/:id/availability. -/
structure AvailabilityQuery where
  startTime : Option String
  endTime : Option String
deriving DecidableEq

/-- Outcome of getVenueAvailability (read-only operation). -/
inductive AvailabilityResult where
  | invalidInput
  | notFound
  | internalFailure
  | ok (venueName : String) (maxCourts bookedCourts : Nat) (availableCourts : Int)
deriving DecidableEq

/-- exports.getVenueAvailability (src/controllers/venueController.js lines
149-194).  Note the source validates `isNaN(checkStartTime.getTime())` but
never `checkEndTime`; an invalid end Date then raises a CastError inside
countDocuments, surfacing as internalFailure. -/
def getVenueAvailability (parse : String → Option Int) (st : Store)
    (id : String) (q : AvailabilityQuery) : AvailabilityResult :=
  if jsFalsy q.startTime || jsFalsy q.endTime then
    .invalidInput
  else
    let checkStartTime := q.startTime.bind parse
    let checkEndTime := q.endTime.bind parse
    if checkStartTime.isNone || dateLe checkEndTime checkStartTime then
      .invalidInput
    else
      match st.venues.find? (fun v => v.id == id) with
      | none => .notFound
      | some venue =>
        match checkStartTime, checkEndTime with
        | some s, some e =>
          let overlappingBookingsCount :=
            (st.bookings.filter (availabilityCountFilter id s e)).length
          .ok venue.name venue.maxCourts overlappingBookingsCount
            (max 0 ((venue.maxCourts : Int) - (overlappingBookingsCount : Int)))
        | _, _ => .internalFailure

/-- The slot document built for venue `v`, court index `court`, hour `hour` of
the target day in generateDailyBookingSlots (lines 219-241): courtNumber is
the template string `Court <court>`, the slot runs from `hour` to `hour + 1`
on the target day, bookedBy is the AUTO sentinel, isSlotBooked false,
bookingDate defaults to the invocation instant. -/
def slotFor (tomorrow now : Int) (v : Venue) (court hour : Nat) : SlotDoc :=
  { venue := v.id
  , courtNumber := "Court " ++ Nat.repr court
  , startTime := tomorrow + (hour : Int) * HOUR
  , endTime := tomorrow + ((hour : Int) + 1) * HOUR
  , bookedBy := "AUTO"
  , bookingDate := now
  , isSlotBooked := false }

/-- The `Slot.findOne` idempotence filter (lines 226-231): exact match on
venue, courtNumber, startTime, endTime of the candidate document `d`. -/
def slotKeyMatches (d : SlotDoc) (s : SlotDoc) : Bool :=
  s.venue == d.venue && s.courtNumber == d.courtNumber
    && s.startTime == d.startTime && s.endTime == d.endTime

/-- The iteration space of the innermost loop `for (hour = 9; hour < 17)`. -/
def hourTasks (v : Venue) (court : Nat) : List (Venue × Nat × Nat) :=
  (List.range' 9 8).map (fun hour => (v, court, hour))

/-- The iteration space of `for (court = 1; court <= venue.maxCourts)`. -/
def courtTasks (v : Venue) : List (Venue × Nat × Nat) :=
  (List.range' 1 v.maxCourts).flatMap (hourTasks v)

/-- The full iteration space of the triple loop, in source order. -/
def genTasks : List Venue → List (Venue × Nat × Nat)
  | [] => []
  | v :: vs => courtTasks v ++ genTasks vs

/-- The loop body of generateDailyBookingSlots (lines 215-249), threading the
store, the accumulated created documents and the skip counter.  The final
Bool records whether a `Slot.create` raised: the loop sits inside the
function's single try/catch, so a raise ends the iteration immediately. -/
def genLoop (failOn : SlotDoc → Bool) (tomorrow now : Int) :
    List (Venue × Nat × Nat) → Store → List SlotDoc → Nat →
    Store × List SlotDoc × Nat × Bool
  | [], st, created, skipped => (st, created, skipped, false)
  | (v, court, hour) :: rest, st, created, skipped =>
    let d := slotFor tomorrow now v court hour
    match st.slots.find? (slotKeyMatches d) with
    | some _ => genLoop failOn tomorrow now rest st created (skipped + 1)
    | none =>
      if failOn d then (st, created, skipped, true)
      else genLoop failOn tomorrow now rest
        { st with slots := st.slots ++ [d] } (created ++ [d]) skipped

/-- Outcome of generateDailyBookingSlots: 404 when no venue exists, otherwise
the created documents (`details`, whose length is `createdCount`) and the
skipped count; 500 when a creation raised. -/
inductive GenResult where
  | notFound
  | ok (details : List SlotDoc) (skippedCount : Nat)
  | internalFailure
deriving DecidableEq

/-- exports.generateDailyBookingSlots (src/controllers/bookingController.js
lines 200-262).  `tomorrow` is the start of the target day (the source
computes tomorrow midnight from the clock); `failOn` says which creations the
persistence collaborator rejects. -/
def generateDailyBookingSlots (failOn : SlotDoc → Bool) (st : Store)
    (tomorrow now : Int) : GenResult × Store :=
  if st.venues.length == 0 then
    (.notFound, st)
  else
    match genLoop failOn tomorrow now (genTasks st.venues) st [] 0 with
    | (st2, created, skipped, false) => (.ok created skipped, st2)
    | (st2, _, _, true) => (.internalFailure, st2)

/-- Sum of court capacities over a venue list (the `venues × courts` of the
spec's count formulas). -/
def totalCourts (venues : List Venue) : Nat :=
  (venues.map (fun v => v.maxCourts)).sum

/-- The slot document a loop iteration task stands for. -/
def taskSlot (tomorrow now : Int) (t : Venue × Nat × Nat) : SlotDoc :=
  slotFor tomorrow now t.1 t.2.1 t.2.2

/-- The slot documents a fault-free first run materialises, in loop order. -/
def mkSlotList (tomorrow now : Int) (venues : List Venue) : List SlotDoc :=
  (genTasks venues).map (taskSlot tomorrow now)

/-- Concrete timestamp parser used by witnesses and counterexamples: the
recognised strings are minute-of-day instants, anything else is an Invalid
Date (`none`). -/
def parseFixture (s : String) : Option Int :=
  if s = "10:00" then some 600
  else if s = "10:30" then some 630
  else if s = "11:00" then some 660
  else if s = "11:30" then some 690
  else if s = "12:00" then some 720
  else none

/-- Reference decimal digit expansion, most significant digit first. -/
def digitsRec (n : Nat) : List Char :=
  if _h : n < 10 then [Nat.digitChar n]
  else digitsRec (n / 10) ++ [Nat.digitChar (n % 10)]
decreasing_by exact Nat.div_lt_self (by omega) (by omega)

/-! Concrete fixtures used by witnesses and counterexamples.  The times are
minute-of-day instants recognised by `parseFixture`. -/

/-- A venue with two courts, as in the spec's section 8 example scenario. -/
def arenaA : Venue := ⟨"v1", "Arena A", 2⟩

/-- The empty store holding only `arenaA`. -/
def st0 : Store := ⟨[arenaA], [], []⟩

/-- Alice books Court 1, 10:00-11:00 at `arenaA`. -/
def reqAlice : BookingRequest :=
  ⟨some "v1", some "Court 1", some "10:00", some "11:00", some "Alice"⟩

/-- Bob requests the same court, overlapping 10:30-11:30. -/
def reqBobSameCourt : BookingRequest :=
  ⟨some "v1", some "Court 1", some "10:30", some "11:30", some "Bob"⟩

/-- Bob requests the other court, same 10:00-11:00 window. -/
def reqBobCourt2 : BookingRequest :=
  ⟨some "v1", some "Court 2", some "10:00", some "11:00", some "Bob"⟩

/-- The document `reqAlice` persists (no venue field: the schema drops it). -/
def bookingAlice : BookingDoc := ⟨none, "Court 1", 600, 660, "Alice", 0⟩

/-- The document `reqBobSameCourt` persists. -/
def bookingBobSameCourt : BookingDoc := ⟨none, "Court 1", 630, 690, "Bob", 1⟩

/-- The document `reqBobCourt2` persists. -/
def bookingBobCourt2 : BookingDoc := ⟨none, "Court 2", 600, 660, "Bob", 1⟩

/-- `st0` after Alice's booking succeeded. -/
def stAlice : Store := ⟨[arenaA], [bookingAlice], []⟩

/-- `stAlice` after Bob's Court 2 booking also succeeded. -/
def stTwoBookings : Store := ⟨[arenaA], [bookingAlice, bookingBobCourt2], []⟩

/-- A one-court venue for the slot-generation scenarios. -/
def venueG : Venue := ⟨"g1", "Gym", 1⟩

/-- A store holding only `venueG`, with no slots. -/
def stG : Store := ⟨[venueG], [], []⟩

/-- A persistence fault model: creating the slot that starts at hour 10 of
day zero raises; every other creation succeeds. -/
def failHour10 : SlotDoc → Bool := fun d => d.startTime == 10 * HOUR

/-! Decimal representation: `Nat.repr` is injective.  Needed because the slot
key uses the template string `Court <n>`; the generator relies on distinct
court indices producing distinct labels. -/

theorem digitChar_inj_lt : ∀ a, a < 10 → ∀ b, b < 10 →
    Nat.digitChar a = Nat.digitChar b → a = b := by decide

theorem digitsRec_ne_nil (n : Nat) : digitsRec n ≠ [] := by
  rw [digitsRec]
  split <;> simp

theorem toDigitsCore_eq (n : Nat) : ∀ fuel ds, n < fuel →
    Nat.toDigitsCore 10 fuel n ds = digitsRec n ++ ds := by
  induction n using Nat.strong_induction_on with
  | _ n ih =>
    intro fuel ds hf
    match fuel with
    | f + 1 =>
      rw [Nat.toDigitsCore]
      by_cases h10 : n < 10
      · have h0 : n / 10 = 0 := Nat.div_eq_of_lt h10
        simp only [h0, if_pos]
        rw [digitsRec]
        simp [Nat.mod_eq_of_lt h10, h10]
      · have h0 : n / 10 ≠ 0 := by omega
        rw [if_neg h0]
        rw [ih (n / 10) (Nat.div_lt_self (by omega) (by omega)) f
          ((n % 10).digitChar :: ds) (by omega)]
        conv_rhs => rw [digitsRec]
        rw [dif_neg h10]
        simp

theorem digitsRec_inj : ∀ m n : Nat, digitsRec m = digitsRec n → m = n := by
  intro m
  induction m using Nat.strong_induction_on with
  | _ m ih =>
    intro n h
    by_cases hm : m < 10 <;> by_cases hn : n < 10
    · conv_lhs at h => rw [digitsRec, dif_pos hm]
      conv_rhs at h => rw [digitsRec, dif_pos hn]
      exact digitChar_inj_lt m hm n hn (by simpa using h)
    · exfalso
      conv_lhs at h => rw [digitsRec, dif_pos hm]
      conv_rhs at h => rw [digitsRec, dif_neg hn]
      have hlen := congrArg List.length h
      simp at hlen
      exact digitsRec_ne_nil _ hlen
    · exfalso
      conv_lhs at h => rw [digitsRec, dif_neg hm]
      conv_rhs at h => rw [digitsRec, dif_pos hn]
      have hlen := congrArg List.length h
      simp at hlen
      exact digitsRec_ne_nil _ hlen
    · conv_lhs at h => rw [digitsRec, dif_neg hm]
      conv_rhs at h => rw [digitsRec, dif_neg hn]
      have hrev := congrArg List.reverse h
      simp only [List.reverse_append, List.reverse_singleton, List.singleton_append,
        List.cons.injEq] at hrev
      obtain ⟨hdig, htail⟩ := hrev
      have hdiv : m / 10 = n / 10 := by
        apply ih (m / 10) (Nat.div_lt_self (by omega) (by omega))
        have := congrArg List.reverse htail
        simpa using this
      have hmod : m % 10 = n % 10 :=
        digitChar_inj_lt _ (Nat.mod_lt _ (by omega)) _ (Nat.mod_lt _ (by omega)) hdig
      omega

theorem natRepr_eq_digitsRec (n : Nat) : Nat.repr n = (digitsRec n).asString := by
  unfold Nat.repr Nat.toDigits
  rw [toDigitsCore_eq n (n + 1) [] (by omega)]
  simp

theorem string_data_inj {s t : String} (h : s.data = t.data) : s = t := by
  cases s
  cases t
  exact congrArg String.mk h

theorem natRepr_inj {m n : Nat} (h : Nat.repr m = Nat.repr n) : m = n := by
  apply digitsRec_inj
  rw [natRepr_eq_digitsRec, natRepr_eq_digitsRec] at h
  have := congrArg String.data h
  simpa [List.asString] using this

theorem courtLabel_inj {a b : Nat}
    (h : "Court " ++ Nat.repr a = "Court " ++ Nat.repr b) : a = b := by
  apply natRepr_inj
  have := congrArg String.data h
  simp only [String.data_append] at this
  exact string_data_inj (List.append_cancel_left this)

/-! Behaviour of the slot-generation loop. -/

theorem slotKeyMatches_eq_false {d s : SlotDoc}
    (h : ¬(s.venue = d.venue ∧ s.courtNumber = d.courtNumber
        ∧ s.startTime = d.startTime ∧ s.endTime = d.endTime)) :
    slotKeyMatches d s = false := by
  simp only [slotKeyMatches]
  by_contra hb
  apply h
  simp only [Bool.not_eq_false, Bool.and_eq_true, beq_iff_eq] at hb
  tauto

/-- genLoop only appends the documents it creates: venues and bookings are
untouched, and the final slots are the initial ones followed by exactly the
created documents. -/
theorem genLoop_state (failOn : SlotDoc → Bool) (tomorrow now : Int) :
    ∀ tasks st created skipped,
      ∃ newDocs,
        (genLoop failOn tomorrow now tasks st created skipped).2.1 = created ++ newDocs
        ∧ (genLoop failOn tomorrow now tasks st created skipped).1.slots = st.slots ++ newDocs
        ∧ (genLoop failOn tomorrow now tasks st created skipped).1.venues = st.venues
        ∧ (genLoop failOn tomorrow now tasks st created skipped).1.bookings = st.bookings := by
  intro tasks
  induction tasks with
  | nil => intro st created skipped; exact ⟨[], by simp [genLoop]⟩
  | cons t rest ih =>
    intro st created skipped
    obtain ⟨v, court, hour⟩ := t
    simp only [genLoop]
    cases hfind : st.slots.find? (slotKeyMatches (slotFor tomorrow now v court hour)) with
    | some s => exact ih st created (skipped + 1)
    | none =>
      cases hfail : failOn (slotFor tomorrow now v court hour) with
      | true => exact ⟨[], by simp⟩
      | false =>
        obtain ⟨docs, h1, h2, h3, h4⟩ :=
          ih { st with slots := st.slots ++ [slotFor tomorrow now v court hour] }
            (created ++ [slotFor tomorrow now v court hour]) skipped
        exact ⟨slotFor tomorrow now v court hour :: docs, by simp_all⟩

theorem genLoop_append_ok (failOn : SlotDoc → Bool) (tomorrow now : Int) :
    ∀ xs ys st created skipped st1 c1 k1,
      genLoop failOn tomorrow now xs st created skipped = (st1, c1, k1, false) →
      genLoop failOn tomorrow now (xs ++ ys) st created skipped
        = genLoop failOn tomorrow now ys st1 c1 k1 := by
  intro xs
  induction xs with
  | nil =>
    intro ys st created skipped st1 c1 k1 h
    simp only [genLoop] at h
    cases h
    simp
  | cons t rest ih =>
    intro ys st created skipped st1 c1 k1 h
    obtain ⟨v, court, hour⟩ := t
    simp only [genLoop, List.cons_append] at h ⊢
    cases hfind : st.slots.find? (slotKeyMatches (slotFor tomorrow now v court hour)) with
    | some s =>
      rw [hfind] at h
      exact ih _ _ _ _ _ _ _ h
    | none =>
      rw [hfind] at h
      cases hfail : failOn (slotFor tomorrow now v court hour) with
      | true => rw [hfail] at h; simp at h
      | false =>
        rw [hfail] at h
        exact ih _ _ _ _ _ _ _ h

theorem genLoop_fresh (tomorrow now : Int) :
    ∀ tasks st created skipped,
      (∀ t ∈ tasks, ∀ s ∈ st.slots, slotKeyMatches (taskSlot tomorrow now t) s = false) →
      tasks.Pairwise (fun t1 t2 =>
        slotKeyMatches (taskSlot tomorrow now t2) (taskSlot tomorrow now t1) = false) →
      genLoop (fun _ => false) tomorrow now tasks st created skipped =
        ({ st with slots := st.slots ++ tasks.map (taskSlot tomorrow now) },
          created ++ tasks.map (taskSlot tomorrow now), skipped, false) := by
  intro tasks
  induction tasks with
  | nil => intro st created skipped _ _; simp [genLoop]
  | cons t rest ih =>
    intro st created skipped hfresh hpair
    obtain ⟨v, court, hour⟩ := t
    have hd : taskSlot tomorrow now (v, court, hour) = slotFor tomorrow now v court hour := rfl
    simp only [genLoop]
    have hfind : st.slots.find? (slotKeyMatches (slotFor tomorrow now v court hour)) = none := by
      rw [List.find?_eq_none]
      intro s hs
      have := hfresh (v, court, hour) (by simp) s hs
      rw [hd] at this
      simp [this]
    rw [hfind]
    simp only [Bool.false_eq_true, if_false]
    rw [ih { st with slots := st.slots ++ [slotFor tomorrow now v court hour] }
      (created ++ [slotFor tomorrow now v court hour]) skipped ?_
      (List.Pairwise.sublist (by simp) hpair)]
    · simp [hd]
    · intro t' ht' s hs
      simp only [List.mem_append, List.mem_singleton] at hs
      rcases hs with hs | rfl
      · exact hfresh t' (by simp [ht']) s hs
      · have := (List.pairwise_cons.mp hpair).1 t' ht'
        rw [hd] at this
        exact this

theorem genLoop_found (failOn : SlotDoc → Bool) (tomorrow now : Int) :
    ∀ tasks st created skipped,
      (∀ t ∈ tasks, ∃ s ∈ st.slots, slotKeyMatches (taskSlot tomorrow now t) s = true) →
      genLoop failOn tomorrow now tasks st created skipped
        = (st, created, skipped + tasks.length, false) := by
  intro tasks
  induction tasks with
  | nil => intro st created skipped _; simp [genLoop]
  | cons t rest ih =>
    intro st created skipped hfound
    obtain ⟨v, court, hour⟩ := t
    simp only [genLoop]
    obtain ⟨s, hs, hmatch⟩ := hfound (v, court, hour) (by simp)
    have hsome : (st.slots.find? (slotKeyMatches (slotFor tomorrow now v court hour))).isSome := by
      rw [List.find?_isSome]
      exact ⟨s, hs, hmatch⟩
    cases hfind : st.slots.find? (slotKeyMatches (slotFor tomorrow now v court hour)) with
    | none => rw [hfind] at hsome; simp at hsome
    | some s' =>
      show genLoop failOn tomorrow now rest st created (skipped + 1)
        = (st, created, skipped + (rest.length + 1), false)
      rw [ih st created (skipped + 1) (fun t' ht' => hfound t' (by simp [ht']))]
      have harith : skipped + 1 + rest.length = skipped + (rest.length + 1) := by omega
      rw [harith]

/-! The iteration space of the triple loop. -/

theorem mem_genTasks : ∀ {venues : List Venue} {t : Venue × Nat × Nat}, t ∈ genTasks venues →
    t.1 ∈ venues ∧ 1 ≤ t.2.1 ∧ t.2.1 ≤ t.1.maxCourts ∧ 9 ≤ t.2.2 ∧ t.2.2 < 17 := by
  intro venues
  induction venues with
  | nil => intro t h; cases h
  | cons v vs ih =>
    intro t h
    rw [genTasks] at h
    rcases List.mem_append.mp h with h | h
    · simp only [courtTasks, hourTasks, List.mem_flatMap, List.mem_map] at h
      obtain ⟨c, hc, hour, hh, rfl⟩ := h
      rw [List.mem_range'] at hc hh
      obtain ⟨i, hi, rfl⟩ := hc
      obtain ⟨j, hj, rfl⟩ := hh
      refine ⟨by simp, ?_, ?_, ?_, ?_⟩ <;> dsimp only <;> omega
    · have := ih h
      exact ⟨List.mem_cons_of_mem _ this.1, this.2⟩

theorem startTime_ne_of_hour_ne {tomorrow : Int} {h1 h2 : Nat} (h : h1 ≠ h2) :
    tomorrow + (h1 : Int) * HOUR ≠ tomorrow + (h2 : Int) * HOUR := by
  unfold HOUR
  omega

theorem pairwise_key_genTasks (tomorrow now : Int) :
    ∀ venues : List Venue, (venues.map Venue.id).Nodup →
    (genTasks venues).Pairwise (fun t1 t2 =>
      slotKeyMatches (taskSlot tomorrow now t2) (taskSlot tomorrow now t1) = false) := by
  intro venues
  induction venues with
  | nil => intro _; exact List.Pairwise.nil
  | cons v vs ih =>
    intro hnd
    rw [genTasks, List.pairwise_append]
    simp only [List.map_cons, List.nodup_cons] at hnd
    refine ⟨?_, ih hnd.2, ?_⟩
    · rw [courtTasks, List.pairwise_flatMap]
      constructor
      · intro c _
        rw [hourTasks, List.pairwise_map]
        apply (List.pairwise_lt_range' 9 8).imp
        intro h1 h2 hlt
        apply slotKeyMatches_eq_false
        dsimp only [taskSlot, slotFor]
        intro hkey
        exact startTime_ne_of_hour_ne (by omega : h1 ≠ h2) hkey.2.2.1
      · apply (List.pairwise_lt_range' 1 v.maxCourts).imp
        intro c1 c2 hlt t1 h1 t2 h2
        rw [hourTasks, List.mem_map] at h1 h2
        obtain ⟨hr1, _, rfl⟩ := h1
        obtain ⟨hr2, _, rfl⟩ := h2
        apply slotKeyMatches_eq_false
        dsimp only [taskSlot, slotFor]
        intro hkey
        have : c1 = c2 := courtLabel_inj hkey.2.1
        omega
    · intro t1 h1 t2 h2
      simp only [courtTasks, hourTasks, List.mem_flatMap, List.mem_map] at h1
      obtain ⟨c, _, hour, _, rfl⟩ := h1
      apply slotKeyMatches_eq_false
      dsimp only [taskSlot, slotFor]
      intro hkey
      apply hnd.1
      have hv2 : t2.1 ∈ vs := (mem_genTasks h2).1
      rw [hkey.1]
      exact List.mem_map.mpr ⟨t2.1, hv2, rfl⟩

theorem jsFalsy_eq_false {o : Option String} (h : jsFalsy o = false) :
    o = some (o.getD "") := by
  cases o with
  | none => simp [jsFalsy] at h
  | some s => rfl

theorem jsFalsy_some (s : String) : jsFalsy (some s) = (s == "") := rfl

theorem genTasks_length : ∀ venues : List Venue,
    (genTasks venues).length = 8 * totalCourts venues := by
  have hcourt : ∀ (v : Venue) (cs : List Nat),
      ((cs.flatMap (hourTasks v)).length = cs.length * 8) := by
    intro v cs
    induction cs with
    | nil => simp
    | cons c rest ih =>
      simp only [List.flatMap_cons, List.length_append, ih, hourTasks,
        List.length_map, List.length_range', List.length_cons]
      omega
  intro venues
  induction venues with
  | nil => simp [genTasks, totalCourts]
  | cons v vs ih =>
    rw [genTasks]
    simp only [List.length_append, ih, courtTasks, hcourt, List.length_range']
    simp only [totalCourts, List.map_cons, List.sum_cons]
    omega

theorem slotKeyMatches_self (tomorrow now now2 : Int) (t : Venue × Nat × Nat) :
    slotKeyMatches (taskSlot tomorrow now2 t) (taskSlot tomorrow now t) = true := by
  simp [slotKeyMatches, taskSlot, slotFor]

theorem fresh_of_outside_day {st : Store} {tomorrow now : Int}
    (hfresh : ∀ s ∈ st.slots, s.startTime < tomorrow ∨ tomorrow + 24 * HOUR ≤ s.startTime) :
    ∀ t ∈ genTasks st.venues, ∀ s ∈ st.slots,
      slotKeyMatches (taskSlot tomorrow now t) s = false := by
  intro t ht s hs
  have hmem := mem_genTasks ht
  apply slotKeyMatches_eq_false
  dsimp only [taskSlot, slotFor]
  intro hkey
  have hout := hfresh s hs
  have hstart := hkey.2.2.1
  rw [hstart] at hout
  unfold HOUR at hout
  omega

/-! The claim theorems. -/

/-- C1 fails on the code: from the empty store, two overlapping requests for
the same venue and court both succeed, so a reachable state holds two
persisted bookings on the same (venueId, courtNumber) whose half-open
intervals overlap per the oracle.  The conflict query filters on a `venue`
field bookingSchema never persists, so it can never match. -/
theorem c1_overlap_invariant_violated :
    createBooking parseFixture st0 reqAlice 0 = (.created bookingAlice, stAlice)
    ∧ createBooking parseFixture stAlice reqBobSameCourt 1
        = (.created bookingBobSameCourt, ⟨[arenaA], [bookingAlice, bookingBobSameCourt], []⟩)
    ∧ bookingAlice.venue = bookingBobSameCourt.venue
    ∧ bookingAlice.courtNumber = bookingBobSameCourt.courtNumber
    ∧ overlaps bookingAlice.startTime bookingAlice.endTime
        bookingBobSameCourt.startTime bookingBobSameCourt.endTime = true := by
  decide

/-- C2 fails on the code: with Alice's booking persisted for Court 1 of venue
v1 covering 10:00-11:00, Bob's overlapping 10:30-11:30 request for the same
venue and court is accepted with 201 created, not rejected with Conflict. -/
theorem c2_same_court_overlap_accepted :
    bookingAlice ∈ stAlice.bookings
    ∧ overlaps bookingAlice.startTime bookingAlice.endTime 630 690 = true
    ∧ (createBooking parseFixture stAlice reqBobSameCourt 1).1
        = .created bookingBobSameCourt
    ∧ (createBooking parseFixture stAlice reqBobSameCourt 1).1 ≠ .conflict := by
  decide

/-- C3: a successful createBooking persists exactly the bookingSchema fields
courtNumber, startTime, endTime, bookedBy and bookingDate (set to the
invocation instant); the venue reference passed in the request is not
retained, because bookingSchema defines no venue path. -/
theorem c3_persisted_booking_has_no_venue
    (parse : String → Option Int) (st : Store) (req : BookingRequest)
    (now : Int) (b : BookingDoc) (st2 : Store)
    (h : createBooking parse st req now = (.created b, st2)) :
    b.venue = none
    ∧ req.courtNumber = some b.courtNumber
    ∧ req.bookedBy = some b.bookedBy
    ∧ (∃ raw, req.startTime = some raw ∧ parse raw = some b.startTime)
    ∧ (∃ raw, req.endTime = some raw ∧ parse raw = some b.endTime)
    ∧ b.bookingDate = now := by
  simp only [createBooking] at h
  split at h
  · simp at h
  · rename_i hpresent
    split at h
    · simp at h
    · split at h
      · simp at h
      · split at h
        · rename_i s e hsbind hebind
          split at h
          · simp at h
          · rw [Prod.mk.injEq] at h
            obtain ⟨hb, hst⟩ := h
            rw [CreateBookingResult.created.injEq] at hb
            subst hb
            rw [Bool.not_eq_true, Bool.or_eq_false_iff, Bool.or_eq_false_iff,
              Bool.or_eq_false_iff, Bool.or_eq_false_iff] at hpresent
            obtain ⟨⟨⟨⟨hvF, hcF⟩, hsF⟩, heF⟩, hbF⟩ := hpresent
            obtain ⟨sRaw, hsr, hps⟩ := Option.bind_eq_some.mp hsbind
            obtain ⟨eRaw, her, hpe⟩ := Option.bind_eq_some.mp hebind
            exact ⟨rfl, jsFalsy_eq_false hcF, jsFalsy_eq_false hbF,
              ⟨sRaw, hsr, hps⟩, ⟨eRaw, her, hpe⟩, rfl⟩
        · simp at h

/-- Witness for C3: Alice's successful booking at the concrete fixture. -/
theorem c3_witness :
    bookingAlice.venue = none
    ∧ reqAlice.courtNumber = some bookingAlice.courtNumber
    ∧ reqAlice.bookedBy = some bookingAlice.bookedBy
    ∧ (∃ raw, reqAlice.startTime = some raw ∧ parseFixture raw = some bookingAlice.startTime)
    ∧ (∃ raw, reqAlice.endTime = some raw ∧ parseFixture raw = some bookingAlice.endTime)
    ∧ bookingAlice.bookingDate = 0 :=
  c3_persisted_booking_has_no_venue parseFixture st0 reqAlice 0 bookingAlice stAlice
    (by decide)

/-- C4: the overlap oracle realised by the conflict and availability query
filters returns true exactly when `aStart < bEnd AND bStart < aEnd` (half-open
intervals, exact integer instants); touching intervals 10:00-11:00 and
11:00-12:00 do not overlap, while 10:00-11:00 and 10:30-11:30 do. -/
theorem c4_overlap_oracle_characterisation :
    (∀ aStart aEnd bStart bEnd : Int,
      overlaps aStart aEnd bStart bEnd = true ↔ aStart < bEnd ∧ bStart < aEnd)
    ∧ (∀ venueId courtNumber newStart newEnd b,
        bookingConflictFilter venueId courtNumber newStart newEnd b = true ↔
          b.venue = some venueId ∧ b.courtNumber = courtNumber
            ∧ overlaps b.startTime b.endTime newStart newEnd = true)
    ∧ (∀ id checkStart checkEnd b,
        availabilityCountFilter id checkStart checkEnd b = true ↔
          b.venue = some id ∧ overlaps b.startTime b.endTime checkStart checkEnd = true)
    ∧ overlaps 600 660 660 720 = false
    ∧ overlaps 600 660 630 690 = true := by
  refine ⟨?_, ?_, ?_, by decide, by decide⟩
  · intro aS aE bS bE
    simp [overlaps]
  · intro vid c ns ne b
    simp [bookingConflictFilter, overlaps, and_assoc]
  · intro i cs ce b
    simp [availabilityCountFilter, overlaps, and_assoc]

/-- Witness for C4 at a concrete stored booking and window. -/
theorem c4_witness :
    bookingConflictFilter "v1" "Court 1" 630 690 ⟨some "v1", "Court 1", 600, 660, "Alice", 0⟩
      = true :=
  (c4_overlap_oracle_characterisation.2.1 "v1" "Court 1" 630 690 _).mpr
    ⟨rfl, rfl, by decide⟩

/-- C5: createBooking validates in source order before touching the store: a
missing field yields InvalidInput; with all fields present, parsed endTime at
or before parsed startTime yields InvalidInput whatever the venue; past that,
an unresolvable venueId yields NotFound — all three before any conflict query
or write, leaving the store unchanged. -/
theorem c5_validation_checks (parse : String → Option Int) (st : Store)
    (req : BookingRequest) (now : Int) :
    ((req.venueId = none ∨ req.courtNumber = none ∨ req.startTime = none
        ∨ req.endTime = none ∨ req.bookedBy = none) →
      createBooking parse st req now = (.invalidInput, st))
    ∧ (∀ sRaw eRaw s e, jsFalsy req.venueId = false → jsFalsy req.courtNumber = false →
        jsFalsy req.bookedBy = false → req.startTime = some sRaw → sRaw ≠ "" →
        req.endTime = some eRaw → eRaw ≠ "" →
        parse sRaw = some s → parse eRaw = some e → e ≤ s →
        createBooking parse st req now = (.invalidInput, st))
    ∧ (∀ sRaw eRaw s e, jsFalsy req.venueId = false → jsFalsy req.courtNumber = false →
        jsFalsy req.bookedBy = false → req.startTime = some sRaw → sRaw ≠ "" →
        req.endTime = some eRaw → eRaw ≠ "" →
        parse sRaw = some s → parse eRaw = some e → s < e →
        st.venues.find? (fun v => v.id == req.venueId.getD "") = none →
        createBooking parse st req now = (.notFound, st)) := by
  refine ⟨?_, ?_, ?_⟩
  · intro hmiss
    rcases hmiss with h | h | h | h | h <;> simp [createBooking, jsFalsy, h]
  · intro sRaw eRaw s e hvF hcF hbF hsr hsne her hene hps hpe hle
    simp [createBooking, hvF, hcF, hbF, hsr, her, hps, hpe, jsFalsy_some, hsne, hene,
      dateLe, hle]
  · intro sRaw eRaw s e hvF hcF hbF hsr hsne her hene hps hpe hlt hfind
    simp [createBooking, hvF, hcF, hbF, hsr, her, hps, hpe, jsFalsy_some, hsne, hene,
      dateLe, not_le.mpr hlt, hfind]

/-- Witness for C5: the three error paths at concrete inputs. -/
theorem c5_witness :
    createBooking parseFixture st0
        ⟨none, some "Court 1", some "10:00", some "11:00", some "Alice"⟩ 0
      = (.invalidInput, st0)
    ∧ createBooking parseFixture st0
        ⟨some "v1", some "Court 1", some "11:00", some "10:00", some "Alice"⟩ 0
      = (.invalidInput, st0)
    ∧ createBooking parseFixture st0
        ⟨some "ghost", some "Court 1", some "10:00", some "11:00", some "Alice"⟩ 0
      = (.notFound, st0) :=
  ⟨(c5_validation_checks parseFixture st0 _ 0).1 (Or.inl rfl),
   (c5_validation_checks parseFixture st0 _ 0).2.1 "11:00" "10:00" 660 600
     rfl rfl rfl rfl (by decide) rfl (by decide) (by decide) (by decide) (by decide),
   (c5_validation_checks parseFixture st0 _ 0).2.2 "10:00" "11:00" 600 660
     rfl rfl rfl rfl (by decide) rfl (by decide) (by decide) (by decide) (by decide)
     (by decide)⟩

/-- C6 fails on the code: an unparsable endTime slips through createBooking's
validation (JavaScript NaN comparisons are false) and through
getVenueAvailability's validation (which tests isNaN only on startTime); both
operations then fail with InternalFailure when the Invalid Date is cast inside
the persistence query, not with InvalidInput.  No write occurs. -/
theorem c6_unparsable_timestamp_not_invalid_input :
    createBooking parseFixture st0
        ⟨some "v1", some "Court 1", some "10:00", some "garbage", some "Alice"⟩ 0
      = (.internalFailure, st0)
    ∧ createBooking parseFixture st0
        ⟨some "v1", some "Court 1", some "garbage", some "11:00", some "Alice"⟩ 0
      = (.internalFailure, st0)
    ∧ getVenueAvailability parseFixture st0 "v1" ⟨some "10:00", some "garbage"⟩
      = .internalFailure
    ∧ CreateBookingResult.internalFailure ≠ CreateBookingResult.invalidInput
    ∧ AvailabilityResult.internalFailure ≠ AvailabilityResult.invalidInput := by
  decide

/-- C7: createBooking has an exact frame: venues and slots are never touched;
on success exactly one booking document is appended, carrying
bookingDate = the invocation instant; on any failure outcome the store is
returned unchanged. -/
theorem c7_create_booking_frame (parse : String → Option Int) (st : Store)
    (req : BookingRequest) (now : Int) :
    (createBooking parse st req now).2.venues = st.venues
    ∧ (createBooking parse st req now).2.slots = st.slots
    ∧ (∀ b, (createBooking parse st req now).1 = .created b →
        (createBooking parse st req now).2.bookings = st.bookings ++ [b]
        ∧ b.bookingDate = now)
    ∧ ((createBooking parse st req now).1 = .invalidInput
        ∨ (createBooking parse st req now).1 = .notFound
        ∨ (createBooking parse st req now).1 = .conflict
        ∨ (createBooking parse st req now).1 = .internalFailure →
      (createBooking parse st req now).2 = st) := by
  simp only [createBooking]
  repeat (any_goals split)
  all_goals simp [bookingSchemaSave]

/-- Witness for C7: the frame at Alice's successful concrete booking. -/
theorem c7_witness :
    (createBooking parseFixture st0 reqAlice 0).2.venues = st0.venues
    ∧ (createBooking parseFixture st0 reqAlice 0).2.bookings
        = st0.bookings ++ [bookingAlice]
    ∧ bookingAlice.bookingDate = 0 :=
  ⟨(c7_create_booking_frame parseFixture st0 reqAlice 0).1,
   ((c7_create_booking_frame parseFixture st0 reqAlice 0).2.2.1 bookingAlice
     (by decide)).1,
   ((c7_create_booking_frame parseFixture st0 reqAlice 0).2.2.1 bookingAlice
     (by decide)).2⟩

/-- C8: slot generation is idempotent.  From a store with at least one venue
and no slot starting inside the target day, a fault-free run creates exactly
8 slots per court per venue — `(sum of maxCourts) * 8` in all, each one hour
long with bookedBy AUTO and isSlotBooked false — and reports skippedCount 0;
an immediately repeated run (at any later invocation instant) creates
nothing, reports createdCount 0 and skippedCount `(sum of maxCourts) * 8`,
and leaves the store unchanged. -/
theorem c8_generate_daily_slots_idempotent
    (st : Store) (tomorrow now now2 : Int)
    (hne : st.venues ≠ [])
    (hids : (st.venues.map Venue.id).Nodup)
    (hfresh : ∀ s ∈ st.slots, s.startTime < tomorrow ∨ tomorrow + 24 * HOUR ≤ s.startTime) :
    generateDailyBookingSlots (fun _ => false) st tomorrow now
      = (.ok (mkSlotList tomorrow now st.venues) 0,
          { st with slots := st.slots ++ mkSlotList tomorrow now st.venues })
    ∧ (mkSlotList tomorrow now st.venues).length = 8 * totalCourts st.venues
    ∧ (∀ s ∈ mkSlotList tomorrow now st.venues,
        s.bookedBy = "AUTO" ∧ s.isSlotBooked = false ∧ s.endTime = s.startTime + HOUR)
    ∧ generateDailyBookingSlots (fun _ => false)
        { st with slots := st.slots ++ mkSlotList tomorrow now st.venues } tomorrow now2
      = (.ok [] (8 * totalCourts st.venues),
          { st with slots := st.slots ++ mkSlotList tomorrow now st.venues }) := by
  have hlen0 : (st.venues.length == 0) = false := by
    simp only [beq_eq_false_iff_ne, ne_eq, List.length_eq_zero]
    exact hne
  have hfirstLoop := genLoop_fresh tomorrow now (genTasks st.venues) st [] 0
    (fresh_of_outside_day hfresh) (pairwise_key_genTasks tomorrow now st.venues hids)
  refine ⟨?_, ?_, ?_, ?_⟩
  · rw [generateDailyBookingSlots, if_neg (by simp [hlen0])]
    rw [hfirstLoop]
    simp [mkSlotList]
  · rw [mkSlotList, List.length_map, genTasks_length]
  · intro s hs
    rw [mkSlotList, List.mem_map] at hs
    obtain ⟨t, _, rfl⟩ := hs
    refine ⟨rfl, rfl, ?_⟩
    dsimp only [taskSlot, slotFor]
    unfold HOUR
    ring
  · rw [generateDailyBookingSlots]
    rw [if_neg (by simp [hlen0])]
    rw [genLoop_found (fun _ => false) tomorrow now2 (genTasks st.venues) _ [] 0 ?_]
    · rw [genTasks_length]
      simp
    · intro t ht
      exact ⟨taskSlot tomorrow now t,
        by simp only [List.mem_append]; right; exact List.mem_map.mpr ⟨t, ht, rfl⟩,
        slotKeyMatches_self tomorrow now now2 t⟩

/-- Witness for C8 at a concrete store: one two-court venue, day zero. -/
theorem c8_witness :
    generateDailyBookingSlots (fun _ => false) st0 0 5
      = (.ok (mkSlotList 0 5 st0.venues) 0,
          { st0 with slots := st0.slots ++ mkSlotList 0 5 st0.venues })
    ∧ (mkSlotList 0 5 st0.venues).length = 8 * totalCourts st0.venues
    ∧ (∀ s ∈ mkSlotList 0 5 st0.venues,
        s.bookedBy = "AUTO" ∧ s.isSlotBooked = false ∧ s.endTime = s.startTime + HOUR)
    ∧ generateDailyBookingSlots (fun _ => false)
        { st0 with slots := st0.slots ++ mkSlotList 0 5 st0.venues } 0 7
      = (.ok [] (8 * totalCourts st0.venues),
          { st0 with slots := st0.slots ++ mkSlotList 0 5 st0.venues }) :=
  c8_generate_daily_slots_idempotent st0 0 5 7 (by decide) (by decide)
    (by intro s hs; simp [st0] at hs)

/-- C9 fails on the code: two bookings created for venue v1 both overlap the
10:00-11:00 window, yet getVenueAvailability reports bookedCourts = 0 and
availableCourts = 2, because countDocuments filters on a venue field that
persisted bookings do not carry.  (The max(0, -) clamp itself is as claimed.) -/
theorem c9_booked_count_ignores_persisted_bookings :
    createBooking parseFixture st0 reqAlice 0 = (.created bookingAlice, stAlice)
    ∧ createBooking parseFixture stAlice reqBobCourt2 1
        = (.created bookingBobCourt2, stTwoBookings)
    ∧ (stTwoBookings.bookings.filter
        (fun b => overlaps b.startTime b.endTime 600 660)).length = 2
    ∧ getVenueAvailability parseFixture stTwoBookings "v1" ⟨some "10:00", some "11:00"⟩
        = .ok "Arena A" 2 0 2 := by
  decide

/-- C10 fails as stated: with a one-court venue and a collaborator that
rejects the creation of the hour-10 slot, the generation run stops at the
second of its eight iterations: the hour-9 sibling created before the failure
is kept (no rollback), but hours 11-16 are never attempted and the operation
reports InternalFailure. -/
theorem c10_single_failure_aborts_batch :
    (genTasks stG.venues).length = 8
    ∧ generateDailyBookingSlots failHour10 stG 0 0
        = (.internalFailure, ⟨[venueG], [], [slotFor 0 0 venueG 1 9]⟩) := by
  decide

/-- C10 amended: a failure while creating one slot does not roll back the
sibling slots already created in the run — the final store keeps every
document created before the failure — but it does abort the remaining
iterations: the raise reaches the operation's single try/catch, the run
reports InternalFailure, and no task after the failing one is attempted (the
outcome does not depend on `post`). -/
theorem c10_amended_no_rollback_but_abort
    (failOn : SlotDoc → Bool) (st : Store) (tomorrow now : Int)
    (pre post : List (Venue × Nat × Nat)) (v : Venue) (court hour : Nat)
    (st1 : Store) (created1 : List SlotDoc) (skipped1 : Nat)
    (hne : st.venues ≠ [])
    (htasks : genTasks st.venues = pre ++ (v, court, hour) :: post)
    (hpre : genLoop failOn tomorrow now pre st [] 0 = (st1, created1, skipped1, false))
    (hnf : st1.slots.find? (slotKeyMatches (slotFor tomorrow now v court hour)) = none)
    (hfail : failOn (slotFor tomorrow now v court hour) = true) :
    generateDailyBookingSlots failOn st tomorrow now = (.internalFailure, st1)
    ∧ st1.slots = st.slots ++ created1 := by
  constructor
  · rw [generateDailyBookingSlots,
      if_neg (by simp only [beq_iff_eq, List.length_eq_zero]; exact hne), htasks,
      genLoop_append_ok failOn tomorrow now pre ((v, court, hour) :: post)
        st [] 0 st1 created1 skipped1 hpre]
    rw [genLoop, hnf]
    simp [hfail]
  · obtain ⟨docs, h1, h2, _, _⟩ := genLoop_state failOn tomorrow now pre st [] 0
    rw [hpre] at h1 h2
    simp only [List.nil_append] at h1
    rw [h2, h1]

/-- Witness for the amended C10 at the concrete one-court scenario: the
hour-9 slot created before the hour-10 failure is kept, nothing after runs. -/
theorem c10_amended_witness :
    generateDailyBookingSlots failHour10 stG 0 0
      = (.internalFailure, ⟨[venueG], [], [slotFor 0 0 venueG 1 9]⟩)
    ∧ (⟨[venueG], [], [slotFor 0 0 venueG 1 9]⟩ : Store).slots
        = stG.slots ++ [slotFor 0 0 venueG 1 9] :=
  c10_amended_no_rollback_but_abort failHour10 stG 0 0
    [(venueG, 1, 9)]
    [(venueG, 1, 11), (venueG, 1, 12), (venueG, 1, 13), (venueG, 1, 14),
      (venueG, 1, 15), (venueG, 1, 16)]
    venueG 1 10 ⟨[venueG], [], [slotFor 0 0 venueG 1 9]⟩ [slotFor 0 0 venueG 1 9] 0
    (by decide) (by decide) (by decide) (by decide) (by decide)

end Badminton
